import Mathlib

/-!
Shallow embedding of the EigenDA v1 SDK client (`src/client.ts`,
`src/types.ts`, `src/utils/environment.ts`).

The client is an HTTP/ledger façade; its logic-bearing parts are:
  * `waitForStatus` — the bounded status-polling loop,
  * `retrieve` — addressing-mode resolution, optional embedded polling,
    request building, and the best-effort body decode,
  * the 32-byte identifier normalization used by `upload` and the ledger
    operations (`getBalance`, `topupCredits`, `getIdentifierOwner`),
  * the receipt-status mapping of `topupCredits`.

Network effects are modelled by oracles: the status endpoint is a function
`fetch : Nat → StatusResponse` giving the response to the (k+1)-st status
check, and the retrieval endpoint's response body is a byte list supplied
as an argument.  Real-time delays (`checkInterval`, `initialDelay`) do not
affect which responses are fetched, only when; they are not modelled.
JavaScript string truthiness (empty string and `undefined` are falsy) is
modelled by `truthy` below.
-/

/-- Job status values, from `StatusResponse['status']` in `src/types.ts`. -/
inductive Status where
  | PENDING
  | PROCESSING
  | CONFIRMED
  | FINALIZED
  | FAILED
deriving DecidableEq, Repr

/-- Display string of a status, as interpolated into template literals
    (`${targetStatus}`) by the source. -/
def Status.text : Status → String
  | .PENDING => "PENDING"
  | .PROCESSING => "PROCESSING"
  | .CONFIRMED => "CONFIRMED"
  | .FINALIZED => "FINALIZED"
  | .FAILED => "FAILED"

/-- Blob coordinates, from `StatusResponse['blobInfo']` in `src/types.ts`. -/
structure BlobInfo where
  batchHeaderHash : String
  blobIndex : Nat
deriving DecidableEq, Repr

/-- Mirror of the `StatusResponse` interface in `src/types.ts`.  Optional
    fields become `Option`. -/
structure StatusResponse where
  status : Status
  requestId : Option String
  blobInfo : Option BlobInfo
  error : Option String
deriving DecidableEq, Repr

/-- Error taxonomy of `src/types.ts`; each carries its `message`. -/
inductive EDAError where
  | uploadError (msg : String)
  | retrieveError (msg : String)
  | statusError (msg : String)
  | configurationError (msg : String)
deriving DecidableEq, Repr

/-- Message carried by an error (`error.message` in the source). -/
def EDAError.message : EDAError → String
  | .uploadError m => m
  | .retrieveError m => m
  | .statusError m => m
  | .configurationError m => m

/-- Constant `MAX_STATUS_CHECKS` from `src/utils/environment.ts`. -/
def MAX_STATUS_CHECKS : Nat := 60

/-- Constant `STATUS_CHECK_INTERVAL` (seconds) from `src/utils/environment.ts`. -/
def STATUS_CHECK_INTERVAL : Nat := 10

/-- Constant `INITIAL_RETRIEVAL_DELAY` (seconds) from `src/utils/environment.ts`. -/
def INITIAL_RETRIEVAL_DELAY : Nat := 300

/-- JavaScript truthiness of an optional string: `undefined` and the empty
    string are falsy, every other string is truthy. -/
def truthy : Option String → Bool
  | none => false
  | some s => !s.isEmpty

/-- Model of the JavaScript idiom `o || d` at an optional string, as in
    `statusResponse.error || 'Unknown error'`: the default is used when the
    option is absent or the empty string. -/
def orElseStr (o : Option String) (d : String) : String :=
  match o with
  | some s => if s.isEmpty then d else s
  | none => d

/-- Body of the `while (checks < maxChecks)` loop of
    `EigenDAClient.waitForStatus` (`src/client.ts` lines 119-134), with the
    loop turned into structural recursion on the remaining iteration count
    `fuel` (the invariant is `fuel = maxChecks - checks`).  `fetch k` is the
    response of the (k+1)-st `getStatus` call.  The second component of the
    result is the total number of status checks performed. -/
def pollGo (fetch : Nat → StatusResponse) (target : Status) (maxChecks : Nat) :
    Nat → Nat → Except EDAError StatusResponse × Nat
  | checks, 0 =>
      (Except.error (EDAError.statusError
        ("Timeout waiting for status " ++ target.text ++ " after "
          ++ toString maxChecks ++ " checks")), checks)
  | checks, fuel + 1 =>
      if (fetch checks).status = target then
        (Except.ok (fetch checks), checks + 1)
      else if (fetch checks).status = Status.FAILED then
        (Except.error (EDAError.statusError
          ("Job failed: " ++ orElseStr (fetch checks).error "Unknown error")),
         checks + 1)
      else
        pollGo fetch target maxChecks (checks + 1) fuel

/-- `EigenDAClient.waitForStatus` (`src/client.ts` lines 110-135), run
    against the status oracle `fetch`.  The initial delay and the
    inter-check sleeps are real-time effects that do not change the fetched
    sequence and are omitted. -/
def waitForStatus (fetch : Nat → StatusResponse) (target : Status)
    (maxChecks : Nat) : Except EDAError StatusResponse × Nat :=
  pollGo fetch target maxChecks 0 maxChecks

/-- Concrete status oracle: PENDING, then PROCESSING, then CONFIRMED (with a
    request id) forever. -/
def seqPPC : Nat → StatusResponse := fun n =>
  if n = 0 then ⟨Status.PENDING, none, none, none⟩
  else if n = 1 then ⟨Status.PROCESSING, none, none, none⟩
  else ⟨Status.CONFIRMED, some "req-1", none, none⟩

/-- Concrete status oracle: PENDING, then FAILED with a server error. -/
def seqPF : Nat → StatusResponse := fun n =>
  if n = 0 then ⟨Status.PENDING, none, none, none⟩
  else ⟨Status.FAILED, none, none, some "boom"⟩

/-- Concrete status oracle that stays PENDING forever. -/
def seqPending : Nat → StatusResponse := fun _ =>
  ⟨Status.PENDING, none, none, none⟩

/-- Hex digit characters used by `Buffer.toString('hex')` and
    `ethers.hexlify` (both lowercase). -/
def hexDigits : List Char := "0123456789abcdef".toList

/-- Hex digit character of a value below 16. -/
def hexDigitChar (n : Nat) : Char := hexDigits.getD n '0'

/-- Two-character lowercase hex rendering of one byte. -/
def byteHexChars (b : Nat) : List Char := [hexDigitChar (b / 16), hexDigitChar (b % 16)]

/-- Character sequence of the lowercase hex rendering of a byte sequence. -/
def hexChars (bytes : List Nat) : List Char := (bytes.map byteHexChars).flatten

/-- Lowercase hex string of a byte sequence, as produced by
    `Buffer.from(bytes).toString('hex')`. -/
def hexOfBytes (bytes : List Nat) : String := String.mk (hexChars bytes)

/-- JavaScript `String.prototype.padStart(n, c)`: prepend copies of `c`
    until the length reaches `n`; a string already at least `n` long is
    returned unchanged. -/
def padStart (s : String) (n : Nat) (c : Char) : String :=
  String.mk (List.replicate (n - s.length) c ++ s.data)

/-- Identifier encoding of `EigenDAClient.upload` (`src/client.ts` lines
    75-77): `Buffer.from(identifier).toString('hex').padStart(64, '0')`. -/
def uploadIdentifierHex (identifier : List Nat) : String :=
  padStart (hexOfBytes identifier) 64 '0'

/-- Model of `ethers.zeroPadValue(value, 32)` at the byte level: left-pad
    with zero bytes to 32 bytes; a longer input is rejected (ethers throws). -/
def zeroPadValue32 (bytes : List Nat) : Option (List Nat) :=
  if bytes.length ≤ 32 then some (List.replicate (32 - bytes.length) 0 ++ bytes) else none

/-- Identifier encoding shared by `getBalance`, `topupCredits` and
    `getIdentifierOwner` (`src/client.ts` lines 181-182, 195-196, 253-254):
    `ethers.hexlify(ethers.zeroPadValue('0x' + hexString, 32))`. -/
def formatIdentifier (identifier : List Nat) : Option String :=
  match zeroPadValue32 identifier with
  | some padded => some ("0x" ++ hexOfBytes padded)
  | none => none

/-- Transaction receipt as consumed by `topupCredits` (`receipt.hash` and
    `receipt.status`, the latter `number | null` in ethers). -/
structure TransactionReceipt where
  hash : String
  status : Option Nat
deriving DecidableEq, Repr

/-- Result shape of `EigenDAClient.topupCredits`. -/
structure TopupResult where
  transactionHash : String
  status : String
deriving DecidableEq, Repr

/-- Receipt-to-result mapping of `EigenDAClient.topupCredits`
    (`src/client.ts` lines 202-205): `status: receipt.status === 1 ?
    'success' : 'failed'`. -/
def topupCreditsResult (receipt : TransactionReceipt) : TopupResult :=
  ⟨receipt.hash, if receipt.status = some 1 then "success" else "failed"⟩

/-- Continuation-byte test for UTF-8 (0x80..0xBF). -/
def isCont (b : Nat) : Bool := decide (0x80 ≤ b) && decide (b < 0xC0)

/-- Strict UTF-8 decoding of a byte sequence: `some` exactly on valid UTF-8
    (no overlong forms, no surrogate code points, no out-of-range code
    points), in which case it yields the decoded characters.  This models
    the "valid UTF-8 text" side of `TextDecoder`. -/
def utf8Decode? : List Nat → Option (List Char)
  | [] => some []
  | b :: rest =>
    if b < 0x80 then
      match utf8Decode? rest with
      | some cs => some (Char.ofNat b :: cs)
      | none => none
    else if b < 0xC2 then none
    else if b < 0xE0 then
      match rest with
      | b1 :: rest1 =>
        if isCont b1 then
          match utf8Decode? rest1 with
          | some cs => some (Char.ofNat ((b - 0xC0) * 0x40 + (b1 - 0x80)) :: cs)
          | none => none
        else none
      | [] => none
    else if b < 0xF0 then
      match rest with
      | b1 :: b2 :: rest2 =>
        if isCont b1 && isCont b2 then
          let cp := (b - 0xE0) * 0x1000 + (b1 - 0x80) * 0x40 + (b2 - 0x80)
          if cp < 0x800 then none
          else if 0xD800 ≤ cp ∧ cp < 0xE000 then none
          else
            match utf8Decode? rest2 with
            | some cs => some (Char.ofNat cp :: cs)
            | none => none
        else none
      | _ => none
    else if b < 0xF8 then
      match rest with
      | b1 :: b2 :: b3 :: rest3 =>
        if isCont b1 && isCont b2 && isCont b3 then
          let cp := (b - 0xF0) * 0x40000 + (b1 - 0x80) * 0x1000
            + (b2 - 0x80) * 0x40 + (b3 - 0x80)
          if cp < 0x10000 then none
          else if 0x10FFFF < cp then none
          else
            match utf8Decode? rest3 with
            | some cs => some (Char.ofNat cp :: cs)
            | none => none
        else none
      | _ => none
    else none

/-- The Unicode replacement character U+FFFD. -/
def replacementChar : Char := Char.ofNat 0xFFFD

/-- Model of `new TextDecoder().decode(bytes)` as used by `retrieve`
    (`src/client.ts` line 169).  `TextDecoder` in its default non-fatal mode
    never throws: valid UTF-8 decodes exactly (modelled by `utf8Decode?`),
    and invalid input is decoded with U+FFFD replacement characters
    (approximated here per byte; every theorem about the invalid case
    depends only on JSON parsing failing on the result, not on the exact
    replacement text). -/
def textDecode (bytes : List Nat) : String :=
  match utf8Decode? bytes with
  | some cs => String.mk cs
  | none =>
      String.mk (bytes.map (fun b => if b < 0x80 then Char.ofNat b else replacementChar))

/-- Value returned by `retrieve`: either a structured value produced by the
    JSON parser, or the raw response bytes.  The parser's value type is
    abstract, as `JSON.parse` is an external builtin. -/
inductive RetrievedValue (α : Type) where
  | parsed (v : α)
  | bytes (bs : List Nat)
deriving DecidableEq, Repr

/-- Body decode of `retrieve` (`src/client.ts` lines 168-173): decode as
    text, attempt a JSON parse (`parse` models the external `JSON.parse`,
    returning `none` where it would throw), and fall back to the raw bytes
    on parse failure. -/
def tryDecodeBody {α : Type} (parse : String → Option α) (body : List Nat) :
    RetrievedValue α :=
  match parse (textDecode body) with
  | some v => RetrievedValue.parsed v
  | none => RetrievedValue.bytes body

/-- Mirror of the `RetrieveOptions` interface in `src/types.ts`. -/
structure RetrieveOptions where
  jobId : Option String
  requestId : Option String
  batchHeaderHash : Option String
  blobIndex : Option Nat
  waitForCompletion : Bool
deriving DecidableEq, Repr

/-- The single outbound retrieval request body built by `retrieve`: one of
    `{request_id}`, `{job_id}` or `{batch_header_hash, blob_index}`. -/
inductive RetrieveRequest where
  | byRequestId (value : String)
  | byJobId (value : String)
  | byBatchBlob (batchHeaderHash : String) (blobIndex : Nat)
deriving DecidableEq, Repr

/-- Observable trace of one `retrieve` call: its result, the retrieval
    request it built (if it got that far), the number of status checks it
    performed, and the number of retrieval HTTP calls it made. -/
structure RetrieveTrace (α : Type) where
  result : Except EDAError (RetrievedValue α)
  request : Option RetrieveRequest
  statusChecks : Nat
  retrievalCalls : Nat

/-- Request-id resolution step of `retrieve` (`src/client.ts` lines
    139-148): `finalRequestId` starts as the caller's `requestId`; when
    `jobId` is truthy and `waitForCompletion` is set, it is replaced by the
    polled status response's `requestId`, failing when that is falsy.  The
    second component counts status checks. -/
def resolveRequestId (opts : RetrieveOptions) (fetch : Nat → StatusResponse) :
    Except EDAError (Option String) × Nat :=
  if truthy opts.jobId && opts.waitForCompletion then
    match waitForStatus fetch Status.CONFIRMED MAX_STATUS_CHECKS with
    | (Except.ok st, n) =>
        if truthy st.requestId then (Except.ok st.requestId, n)
        else (Except.error (EDAError.retrieveError "No request_id in completed status"), n)
    | (Except.error e, n) => (Except.error e, n)
  else (Except.ok opts.requestId, 0)

/-- Request building step of `retrieve` (`src/client.ts` lines 150-162):
    first-match precedence over truthy `finalRequestId`, truthy `jobId`,
    then truthy `batchHeaderHash` with a defined `blobIndex`. -/
def buildRequest (finalRequestId : Option String) (opts : RetrieveOptions) :
    Except EDAError RetrieveRequest :=
  if truthy finalRequestId then
    Except.ok (RetrieveRequest.byRequestId (finalRequestId.getD ""))
  else if truthy opts.jobId then
    Except.ok (RetrieveRequest.byJobId (opts.jobId.getD ""))
  else if truthy opts.batchHeaderHash && opts.blobIndex.isSome then
    Except.ok (RetrieveRequest.byBatchBlob (opts.batchHeaderHash.getD "")
      (opts.blobIndex.getD 0))
  else
    Except.error (EDAError.retrieveError
      "Must provide either jobId, requestId, or both batchHeaderHash and blobIndex")

/-- Body of the `try` block of `EigenDAClient.retrieve` (`src/client.ts`
    lines 138-173): resolve the request id, build the request, perform the
    retrieval call (whose response body is the oracle `body`) and decode. -/
def retrieveInner {α : Type} (opts : RetrieveOptions)
    (fetch : Nat → StatusResponse) (body : List Nat)
    (parse : String → Option α) : RetrieveTrace α :=
  match resolveRequestId opts fetch with
  | (Except.error e, n) => ⟨Except.error e, none, n, 0⟩
  | (Except.ok fr, n) =>
    match buildRequest fr opts with
    | Except.error e => ⟨Except.error e, none, n, 0⟩
    | Except.ok req => ⟨Except.ok (tryDecodeBody parse body), some req, n, 1⟩

/-- `EigenDAClient.retrieve` (`src/client.ts` lines 137-177): the `try`
    body wrapped by the outer `catch`, which rewraps any thrown error as a
    `RetrieveError` with the "Retrieval failed: " message. -/
def retrieve {α : Type} (opts : RetrieveOptions) (fetch : Nat → StatusResponse)
    (body : List Nat) (parse : String → Option α) : RetrieveTrace α :=
  let t := retrieveInner opts fetch body parse
  match t.result with
  | Except.ok _ => t
  | Except.error e =>
      ⟨Except.error (EDAError.retrieveError ("Retrieval failed: " ++ EDAError.message e)),
       t.request, t.statusChecks, t.retrievalCalls⟩

/-- Concrete status oracle: immediately CONFIRMED but with no request id. -/
def seqConfNoReq : Nat → StatusResponse := fun _ =>
  ⟨Status.CONFIRMED, none, none, none⟩

/-- Concrete status oracle: immediately CONFIRMED with request id "S". -/
def seqConfS : Nat → StatusResponse := fun _ =>
  ⟨Status.CONFIRMED, some "S", none, none⟩

/-- Concrete retrieve options with a supplied-but-empty `requestId`
    alongside `jobId = "J"`: `requestId` is present, yet falsy in the
    source's truthiness test. -/
def c4cexOpts : RetrieveOptions := ⟨some "J", some "", none, none, false⟩

/-- Concrete retrieve options for C5's counterexample: `jobId` is present
    but empty, `waitForCompletion` is set. -/
def c5cexOpts : RetrieveOptions := ⟨some "", none, none, none, true⟩

/-- Concrete retrieve options for C10's counterexample: both `requestId`
    and `jobId` present, but `jobId` empty, with `waitForCompletion`. -/
def c10cexOpts : RetrieveOptions := ⟨some "", some "R", none, none, true⟩

/-- Helper: if the first matching response sits `gap` positions after the
    current check index and enough fuel remains, the loop returns it,
    having performed `c + gap + 1` checks in total. -/
theorem pollGo_success (fetch : Nat → StatusResponse) (target : Status)
    (maxChecks : Nat) :
    ∀ (gap c fuel : Nat), gap < fuel →
      (fetch (c + gap)).status = target →
      (∀ j, c ≤ j → j < c + gap →
        (fetch j).status ≠ target ∧ (fetch j).status ≠ Status.FAILED) →
      pollGo fetch target maxChecks c fuel
        = (Except.ok (fetch (c + gap)), (c + gap) + 1) := by
  intro gap
  induction gap with
  | zero =>
      intro c fuel hlt hmatch _
      obtain ⟨fuel, rfl⟩ : ∃ f, fuel = f + 1 := ⟨fuel - 1, by omega⟩
      rw [Nat.add_zero] at hmatch ⊢
      simp [pollGo, hmatch]
  | succ gap ih =>
      intro c fuel hlt hmatch hpre
      obtain ⟨fuel, rfl⟩ : ∃ f, fuel = f + 1 := ⟨fuel - 1, by omega⟩
      have hc := hpre c (Nat.le_refl c) (by omega)
      have hstep : c + (gap + 1) = (c + 1) + gap := by omega
      rw [hstep] at hmatch ⊢
      simp only [pollGo, if_neg hc.1, if_neg hc.2]
      exact ih (c + 1) fuel (by omega) hmatch
        (fun j hj1 hj2 => hpre j (by omega) (by omega))

/-- Helper: a FAILED response `gap` positions ahead short-circuits the loop
    with the job-failure error, after `c + gap + 1` checks. -/
theorem pollGo_failed (fetch : Nat → StatusResponse) (target : Status)
    (maxChecks : Nat) :
    ∀ (gap c fuel : Nat), gap < fuel →
      (fetch (c + gap)).status = Status.FAILED →
      target ≠ Status.FAILED →
      (∀ j, c ≤ j → j < c + gap →
        (fetch j).status ≠ target ∧ (fetch j).status ≠ Status.FAILED) →
      pollGo fetch target maxChecks c fuel
        = (Except.error (EDAError.statusError
            ("Job failed: " ++ orElseStr (fetch (c + gap)).error "Unknown error")),
           (c + gap) + 1) := by
  intro gap
  induction gap with
  | zero =>
      intro c fuel hlt hfail hne _
      obtain ⟨fuel, rfl⟩ : ∃ f, fuel = f + 1 := ⟨fuel - 1, by omega⟩
      rw [Nat.add_zero] at hfail ⊢
      have hnt : (fetch c).status ≠ target := by
        rw [hfail]; exact fun h => hne h.symm
      have hnt2 : ¬ (Status.FAILED = target) := fun h => hne h.symm
      simp [pollGo, if_neg hnt, hfail, hnt2]
  | succ gap ih =>
      intro c fuel hlt hfail hne hpre
      obtain ⟨fuel, rfl⟩ : ∃ f, fuel = f + 1 := ⟨fuel - 1, by omega⟩
      have hc := hpre c (Nat.le_refl c) (by omega)
      have hstep : c + (gap + 1) = (c + 1) + gap := by omega
      rw [hstep] at hfail ⊢
      simp only [pollGo, if_neg hc.1, if_neg hc.2]
      exact ih (c + 1) fuel (by omega) hfail hne
        (fun j hj1 hj2 => hpre j (by omega) (by omega))

/-- Helper: when no response in the window matches the target and none is
    FAILED, the loop exhausts its fuel and reports the timeout, having
    performed `c + fuel` checks. -/
theorem pollGo_timeout (fetch : Nat → StatusResponse) (target : Status)
    (maxChecks : Nat) :
    ∀ (fuel c : Nat),
      (∀ j, c ≤ j → j < c + fuel →
        (fetch j).status ≠ target ∧ (fetch j).status ≠ Status.FAILED) →
      pollGo fetch target maxChecks c fuel
        = (Except.error (EDAError.statusError
            ("Timeout waiting for status " ++ target.text ++ " after "
              ++ toString maxChecks ++ " checks")), c + fuel) := by
  intro fuel
  induction fuel with
  | zero =>
      intro c _
      simp [pollGo]
  | succ fuel ih =>
      intro c hpre
      have hc := hpre c (Nat.le_refl c) (by omega)
      simp only [pollGo, if_neg hc.1, if_neg hc.2]
      rw [ih (c + 1) (fun j hj1 hj2 => hpre j (by omega) (by omega))]
      exact congrArg _ (by omega)

/-- Helper: any successful result of the loop has exactly the target
    status. -/
theorem pollGo_ok_status (fetch : Nat → StatusResponse) (target : Status)
    (maxChecks : Nat) :
    ∀ (fuel c : Nat) (r : StatusResponse) (n : Nat),
      pollGo fetch target maxChecks c fuel = (Except.ok r, n) →
      r.status = target := by
  intro fuel
  induction fuel with
  | zero =>
      intro c r n h
      simp [pollGo] at h
  | succ fuel ih =>
      intro c r n h
      simp only [pollGo] at h
      split at h
      · rename_i hcond
        obtain ⟨h1, -⟩ := Prod.mk.injEq .. ▸ h
        cases h1
        exact hcond
      · split at h
        · simp at h
        · exact ih (c + 1) r n h

/-- C1: for every status sequence and target in {CONFIRMED, FINALIZED},
    `waitForStatus` returns the first fetched response whose status equals
    the target, performing exactly that response's 1-indexed position many
    checks, provided the position is within `maxChecks` and no earlier
    response is FAILED; moreover every successful return has exactly the
    target status, so a differing status (including a non-target terminal
    one) never ends the loop successfully. -/
theorem waitForStatus_first_match :
    (∀ (fetch : Nat → StatusResponse) (target : Status) (maxChecks i : Nat),
        (target = Status.CONFIRMED ∨ target = Status.FINALIZED) →
        i < maxChecks →
        (fetch i).status = target →
        (∀ j, j < i →
          (fetch j).status ≠ target ∧ (fetch j).status ≠ Status.FAILED) →
        waitForStatus fetch target maxChecks = (Except.ok (fetch i), i + 1))
    ∧ (∀ (fetch : Nat → StatusResponse) (target : Status) (maxChecks : Nat)
          (r : StatusResponse) (n : Nat),
        waitForStatus fetch target maxChecks = (Except.ok r, n) →
        r.status = target) := by
  constructor
  · intro fetch target maxChecks i _ hlt hmatch hpre
    have h := pollGo_success fetch target maxChecks i 0 maxChecks hlt
      (by simpa using hmatch)
      (fun j hj1 hj2 => hpre j (by omega))
    simpa using h
  · intro fetch target maxChecks r n h
    exact pollGo_ok_status fetch target maxChecks maxChecks 0 r n h

/-- Witness for C1 at the spec's own example: the sequence PENDING,
    PROCESSING, CONFIRMED with `maxChecks = 3` returns the CONFIRMED
    response after exactly 3 checks. -/
theorem waitForStatus_first_match_witness :
    waitForStatus seqPPC Status.CONFIRMED 3
      = (Except.ok ⟨Status.CONFIRMED, some "req-1", none, none⟩, 3) :=
  waitForStatus_first_match.1 seqPPC Status.CONFIRMED 3 2
    (Or.inl rfl) (by decide) (by decide) (by decide)

/-- C2: a FAILED response reached before any match fails the poll
    immediately with a `StatusError` whose message is the server-supplied
    `error` field appended to "Job failed: " (so it contains that field
    whenever it is non-empty), and no check is performed after the FAILED
    response. -/
theorem waitForStatus_failed_short_circuit :
    ∀ (fetch : Nat → StatusResponse) (target : Status) (maxChecks i : Nat)
      (e : String),
      (target = Status.CONFIRMED ∨ target = Status.FINALIZED) →
      i < maxChecks →
      (fetch i).status = Status.FAILED →
      (fetch i).error = some e →
      (∀ j, j < i →
        (fetch j).status ≠ target ∧ (fetch j).status ≠ Status.FAILED) →
      waitForStatus fetch target maxChecks
        = (Except.error (EDAError.statusError
            ("Job failed: " ++ orElseStr (fetch i).error "Unknown error")),
           i + 1)
      ∧ (e ≠ "" → orElseStr (fetch i).error "Unknown error" = e) := by
  intro fetch target maxChecks i e hor hlt hfail herr hpre
  have hne : target ≠ Status.FAILED := by
    rcases hor with rfl | rfl <;> decide
  constructor
  · have h := pollGo_failed fetch target maxChecks i 0 maxChecks hlt
      (by simpa using hfail) hne (fun j hj1 hj2 => hpre j (by omega))
    simpa using h
  · intro hne'
    rw [herr]
    simp [orElseStr, String.isEmpty_iff, hne']

/-- Witness for C2: against PENDING then FAILED (error "boom"), the poll
    stops after 2 checks with the server error in the message. -/
theorem waitForStatus_failed_short_circuit_witness :
    waitForStatus seqPF Status.CONFIRMED 5
      = (Except.error (EDAError.statusError "Job failed: boom"), 2)
      ∧ orElseStr (seqPF 1).error "Unknown error" = "boom" := by
  have h := waitForStatus_failed_short_circuit seqPF Status.CONFIRMED 5 1
    "boom" (Or.inl rfl) (by decide) (by decide) (by decide) (by decide)
  exact ⟨h.1, h.2 (by decide)⟩

/-- C3: if none of the first N responses matches the target and none is
    FAILED, `waitForStatus` with `maxChecks = N` performs exactly N checks
    and fails with the timeout message naming the target status and N. -/
theorem waitForStatus_timeout :
    ∀ (fetch : Nat → StatusResponse) (target : Status) (N : Nat),
      (∀ j, j < N →
        (fetch j).status ≠ target ∧ (fetch j).status ≠ Status.FAILED) →
      waitForStatus fetch target N
        = (Except.error (EDAError.statusError
            ("Timeout waiting for status " ++ target.text ++ " after "
              ++ toString N ++ " checks")), N) := by
  intro fetch target N hpre
  have h := pollGo_timeout fetch target N N 0
    (fun j hj1 hj2 => hpre j (by omega))
  simpa using h

/-- Witness for C3: an always-PENDING sequence with `maxChecks = 2` times
    out after exactly 2 checks. -/
theorem waitForStatus_timeout_witness :
    waitForStatus seqPending Status.CONFIRMED 2
      = (Except.error (EDAError.statusError
          "Timeout waiting for status CONFIRMED after 2 checks"), 2) :=
  waitForStatus_timeout seqPending Status.CONFIRMED 2 (by decide)

/-- Helper: hex characters distribute over byte-list concatenation. -/
theorem hexChars_append (a b : List Nat) :
    hexChars (a ++ b) = hexChars a ++ hexChars b := by
  simp [hexChars, List.map_append, List.flatten_append]

/-- Helper: zero bytes render as runs of the character '0'. -/
theorem hexChars_replicate_zero (k : Nat) :
    hexChars (List.replicate k 0) = List.replicate (2 * k) '0' := by
  induction k with
  | zero => simp [hexChars]
  | succ k ih =>
      have h2 : 2 * (k + 1) = 2 * k + 1 + 1 := by omega
      rw [List.replicate_succ, h2, List.replicate_succ, List.replicate_succ]
      simp only [hexChars, List.map_cons, List.flatten_cons] at ih ⊢
      rw [ih]
      rfl

/-- Helper: each byte contributes exactly two hex characters. -/
theorem hexChars_length (bytes : List Nat) :
    (hexChars bytes).length = 2 * bytes.length := by
  induction bytes with
  | nil => simp [hexChars]
  | cons b rest ih =>
      simp only [hexChars, List.map_cons, List.flatten_cons, List.length_append,
        List.length_cons] at ih ⊢
      simp [byteHexChars] at ih ⊢
      omega

/-- C6: for every identifier of 1..32 bytes, both boundary encodings — the
    upload path's `padStart(64, '0')` and the ledger path's
    `zeroPadValue(·, 32)` — produce the hex of the identifier left-padded
    with zero bytes to exactly 32 bytes (64 hex characters), preserving the
    input as the trailing bytes; a 32-byte input passes through unchanged. -/
theorem identifier_normalization :
    ∀ identifier : List Nat,
      1 ≤ identifier.length → identifier.length ≤ 32 →
      uploadIdentifierHex identifier
        = hexOfBytes (List.replicate (32 - identifier.length) 0 ++ identifier)
      ∧ (uploadIdentifierHex identifier).length = 64
      ∧ formatIdentifier identifier
        = some ("0x" ++ hexOfBytes (List.replicate (32 - identifier.length) 0 ++ identifier))
      ∧ (identifier.length = 32 →
          uploadIdentifierHex identifier = hexOfBytes identifier
          ∧ formatIdentifier identifier = some ("0x" ++ hexOfBytes identifier)) := by
  intro id h1 h32
  have hlen : (hexOfBytes id).length = 2 * id.length := by
    simp [hexOfBytes, String.length, hexChars_length]
  have hmain : uploadIdentifierHex id
      = hexOfBytes (List.replicate (32 - id.length) 0 ++ id) := by
    unfold uploadIdentifierHex padStart
    rw [hlen]
    show String.mk (List.replicate (64 - 2 * id.length) '0' ++ hexChars id)
      = String.mk (hexChars (List.replicate (32 - id.length) 0 ++ id))
    rw [hexChars_append, hexChars_replicate_zero]
    have h64 : 64 - 2 * id.length = 2 * (32 - id.length) := by omega
    rw [h64]
  refine ⟨hmain, ?_, ?_, ?_⟩
  · rw [hmain]
    show (hexChars (List.replicate (32 - id.length) 0 ++ id)).length = 64
    rw [hexChars_length]
    simp only [List.length_append, List.length_replicate]
    omega
  · simp [formatIdentifier, zeroPadValue32, h32]
  · intro heq
    constructor
    · rw [hmain, heq]
      simp
    · simp [formatIdentifier, zeroPadValue32, heq]

/-- Witness for C6 at the one-byte identifier [0xAB]. -/
theorem identifier_normalization_witness :
    uploadIdentifierHex [171]
      = hexOfBytes (List.replicate 31 0 ++ [171])
    ∧ (uploadIdentifierHex [171]).length = 64
    ∧ formatIdentifier [171]
      = some ("0x" ++ hexOfBytes (List.replicate 31 0 ++ [171])) := by
  have h := identifier_normalization [171] (by decide) (by decide)
  exact ⟨h.1, h.2.1, h.2.2.1⟩

/-- C8: `topupCredits` returns the receipt's transaction hash together with
    the status string "success" exactly when the receipt status code is 1,
    and "failed" for every other status code. -/
theorem topupCredits_status_mapping :
    ∀ receipt : TransactionReceipt,
      (topupCreditsResult receipt).transactionHash = receipt.hash
      ∧ ((topupCreditsResult receipt).status = "success" ↔ receipt.status = some 1)
      ∧ (receipt.status ≠ some 1 → (topupCreditsResult receipt).status = "failed") := by
  intro receipt
  refine ⟨rfl, ?_, ?_⟩
  · by_cases h : receipt.status = some 1 <;> simp [topupCreditsResult, h]
  · intro h
    simp [topupCreditsResult, h]

/-- Witness for C8: status code 0 maps to "failed", status code 1 to
    "success". -/
theorem topupCredits_status_mapping_witness :
    (topupCreditsResult ⟨"0xabc", some 0⟩).status = "failed"
    ∧ (topupCreditsResult ⟨"0xdef", some 1⟩).status = "success" :=
  ⟨(topupCredits_status_mapping ⟨"0xabc", some 0⟩).2.2 (by decide),
   (topupCredits_status_mapping ⟨"0xdef", some 1⟩).2.1.mpr rfl⟩

/-- Helper: a non-empty string wrapped in `some` is truthy. -/
theorem truthy_some {s : String} (h : s ≠ "") : truthy (some s) = true := by
  have he : s.isEmpty = false := by
    cases h' : s.isEmpty
    · rfl
    · exact absurd ((String.isEmpty_iff s).mp h') h
  simp [truthy, he]

/-- C7: the retrieval response body decodes to the parsed structured value
    when the bytes are valid UTF-8 whose text the JSON parser accepts, and
    to exactly the original bytes when the parse fails; whenever `retrieve`
    performs its retrieval call, its result is precisely this decode of the
    response body. -/
theorem retrieve_decode :
    ∀ (α : Type) (parse : String → Option α) (body : List Nat),
      (∀ (cs : List Char) (v : α), utf8Decode? body = some cs →
          parse (String.mk cs) = some v →
          tryDecodeBody parse body = RetrievedValue.parsed v)
      ∧ (parse (textDecode body) = none →
          tryDecodeBody parse body = RetrievedValue.bytes body)
      ∧ (∀ (opts : RetrieveOptions) (fetch : Nat → StatusResponse),
          (retrieve opts fetch body parse).retrievalCalls = 1 →
          (retrieve opts fetch body parse).result
            = Except.ok (tryDecodeBody parse body)) := by
  intro α parse body
  refine ⟨?_, ?_, ?_⟩
  · intro cs v h1 h2
    simp [tryDecodeBody, textDecode, h1, h2]
  · intro h
    simp [tryDecodeBody, h]
  · intro opts fetch h
    rcases hr : resolveRequestId opts fetch with ⟨res, n⟩
    cases res with
    | error e => simp [retrieve, retrieveInner, hr] at h
    | ok fr =>
        cases hb : buildRequest fr opts with
        | error e => simp [retrieve, retrieveInner, hr, hb] at h
        | ok req => simp [retrieve, retrieveInner, hr, hb]

/-- Witness for C7: the bytes of the text "42" parse to the structured
    value 42, and the non-UTF-8 bytes [0x00, 0x01, 0xFF] come back
    unchanged under a parser that rejects their decoded text. -/
theorem retrieve_decode_witness :
    utf8Decode? [52, 50] = some ['4', '2']
    ∧ tryDecodeBody (fun s => if s = "42" then some 42 else none) [52, 50]
        = RetrievedValue.parsed 42
    ∧ tryDecodeBody (fun _ => (none : Option Nat)) [0, 1, 255]
        = RetrievedValue.bytes [0, 1, 255] := by
  refine ⟨by decide, ?_, ?_⟩
  · exact (retrieve_decode Nat (fun s => if s = "42" then some 42 else none)
      [52, 50]).1 ['4', '2'] 42 (by decide) (by decide)
  · exact (retrieve_decode Nat (fun _ => none) [0, 1, 255]).2.1 rfl

/-- Helper: a non-empty string is not `isEmpty`. -/
theorem isEmpty_false_of_ne {s : String} (h : s ≠ "") : s.isEmpty = false := by
  cases h' : s.isEmpty
  · rfl
  · exact absurd ((String.isEmpty_iff s).mp h') h

/-- Helper: `o || d` keeps a non-empty present string. -/
theorem orElseStr_some {s : String} (d : String) (h : s ≠ "") :
    orElseStr (some s) d = s := by
  simp [orElseStr, isEmpty_false_of_ne h]

/-- Counterexample to C4 as stated: with `requestId` present (the empty
    string is a supplied value) and `jobId = "J"`, the code builds
    `{job_id: "J"}`, not `{request_id: ""}`, because the precedence test
    uses JavaScript truthiness, under which an empty string counts as
    absent. -/
theorem retrieve_request_precedence_cex :
    c4cexOpts.requestId = some ""
    ∧ (retrieve (α := Nat) c4cexOpts seqPending [] (fun _ => none)).request
        = some (RetrieveRequest.byJobId "J")
    ∧ some (RetrieveRequest.byJobId "J") ≠ some (RetrieveRequest.byRequestId "") := by
  refine ⟨rfl, rfl, by decide⟩

/-- C4 (amended): the retrieval request is built by first-match precedence
    over truthy (present and non-empty) fields — a truthy resolved
    requestId (supplied, or taken from a successful poll) gives
    {request_id}; else a truthy jobId gives {job_id}; else a truthy
    batchHeaderHash with a defined blobIndex gives
    {batch_header_hash, blob_index}; else the call fails with a
    RetrieveError before any network call.  A bare truthy jobId without
    waitForCompletion triggers no status check. -/
theorem retrieve_request_precedence :
    ∀ (α : Type) (opts : RetrieveOptions) (fetch : Nat → StatusResponse)
      (body : List Nat) (parse : String → Option α),
      ((truthy opts.jobId && opts.waitForCompletion) = true →
        ∀ st n, waitForStatus fetch Status.CONFIRMED MAX_STATUS_CHECKS
            = (Except.ok st, n) →
          truthy st.requestId = true →
          (retrieve opts fetch body parse).request
            = some (RetrieveRequest.byRequestId (st.requestId.getD ""))
          ∧ (retrieve opts fetch body parse).retrievalCalls = 1)
      ∧ ((truthy opts.jobId && opts.waitForCompletion) = false →
          (truthy opts.requestId = true →
            (retrieve opts fetch body parse).request
              = some (RetrieveRequest.byRequestId (opts.requestId.getD ""))
            ∧ (retrieve opts fetch body parse).statusChecks = 0
            ∧ (retrieve opts fetch body parse).retrievalCalls = 1)
          ∧ (truthy opts.requestId = false → truthy opts.jobId = true →
              (retrieve opts fetch body parse).request
                = some (RetrieveRequest.byJobId (opts.jobId.getD ""))
              ∧ (retrieve opts fetch body parse).statusChecks = 0
              ∧ (retrieve opts fetch body parse).retrievalCalls = 1)
          ∧ (truthy opts.requestId = false → truthy opts.jobId = false →
              (truthy opts.batchHeaderHash && opts.blobIndex.isSome) = true →
              (retrieve opts fetch body parse).request
                = some (RetrieveRequest.byBatchBlob
                    (opts.batchHeaderHash.getD "") (opts.blobIndex.getD 0))
              ∧ (retrieve opts fetch body parse).statusChecks = 0
              ∧ (retrieve opts fetch body parse).retrievalCalls = 1)
          ∧ (truthy opts.requestId = false → truthy opts.jobId = false →
              (truthy opts.batchHeaderHash && opts.blobIndex.isSome) = false →
              (retrieve opts fetch body parse).result
                = Except.error (EDAError.retrieveError
                    "Retrieval failed: Must provide either jobId, requestId, or both batchHeaderHash and blobIndex")
              ∧ (retrieve opts fetch body parse).request = none
              ∧ (retrieve opts fetch body parse).statusChecks = 0
              ∧ (retrieve opts fetch body parse).retrievalCalls = 0)) := by
  intro α opts fetch body parse
  constructor
  · intro hw st n hws htr
    constructor <;>
      simp [retrieve, retrieveInner, resolveRequestId, buildRequest, hw, hws, htr]
  · intro hnw
    refine ⟨?_, ?_, ?_, ?_⟩
    · intro hreq
      refine ⟨?_, ?_, ?_⟩ <;>
        simp [retrieve, retrieveInner, resolveRequestId, buildRequest, hnw, hreq]
    · intro hreq hjob
      have hwf : opts.waitForCompletion = false := by
        rw [hjob] at hnw; simpa using hnw
      refine ⟨?_, ?_, ?_⟩ <;>
        simp [retrieve, retrieveInner, resolveRequestId, buildRequest, hreq, hjob, hwf]
    · intro hreq hjob hbb
      refine ⟨?_, ?_, ?_⟩ <;>
        simp [retrieve, retrieveInner, resolveRequestId, buildRequest, hnw, hreq, hjob, hbb]
    · intro hreq hjob hbb
      refine ⟨?_, ?_, ?_, ?_⟩ <;>
        simp [retrieve, retrieveInner, resolveRequestId, buildRequest, hnw, hreq,
          hjob, hbb, EDAError.message]

/-- Witness for C4 (amended): `retrieve({jobId: "J"})` without
    `waitForCompletion` builds `{job_id: "J"}` with no status check and one
    retrieval call. -/
theorem retrieve_request_precedence_witness :
    (retrieve (α := Nat) ⟨some "J", none, none, none, false⟩ seqPending []
        (fun _ => none)).request = some (RetrieveRequest.byJobId "J")
    ∧ (retrieve (α := Nat) ⟨some "J", none, none, none, false⟩ seqPending []
        (fun _ => none)).statusChecks = 0
    ∧ (retrieve (α := Nat) ⟨some "J", none, none, none, false⟩ seqPending []
        (fun _ => none)).retrievalCalls = 1 :=
  ((retrieve_request_precedence Nat ⟨some "J", none, none, none, false⟩
      seqPending [] (fun _ => none)).2 (by decide)).2.1 (by decide) (by decide)

/-- Counterexample to C5 as stated: with `jobId` present (as the empty
    string) and `waitForCompletion = true`, `retrieve` performs zero status
    checks — `waitForStatus` is never invoked, because the source guards the
    wait with JavaScript truthiness of `jobId` — and fails with the
    addressing-mode error rather than the missing-request-id error, even
    though the polled response (had polling happened) would have lacked a
    requestId. -/
theorem retrieve_wait_resolution_cex :
    c5cexOpts.jobId = some "" ∧ c5cexOpts.waitForCompletion = true
    ∧ (retrieve (α := Nat) c5cexOpts seqConfNoReq [] (fun _ => none)).statusChecks = 0
    ∧ (retrieve (α := Nat) c5cexOpts seqConfNoReq [] (fun _ => none)).result
        = Except.error (EDAError.retrieveError
            "Retrieval failed: Must provide either jobId, requestId, or both batchHeaderHash and blobIndex")
    ∧ ("Retrieval failed: Must provide either jobId, requestId, or both batchHeaderHash and blobIndex"
        ≠ "Retrieval failed: No request_id in completed status") := by
  refine ⟨rfl, rfl, rfl, rfl, by decide⟩

/-- C5 (amended): with a non-empty `jobId` and `waitForCompletion = true`,
    `retrieve` performs exactly the checks of `waitForStatus` at the
    default CONFIRMED target and default `maxChecks`; and when the polled
    response lacks a `requestId`, it fails with the RetrieveError
    "Retrieval failed: No request_id in completed status" before any
    retrieval HTTP call. -/
theorem retrieve_wait_resolution :
    ∀ (α : Type) (opts : RetrieveOptions) (fetch : Nat → StatusResponse)
      (body : List Nat) (parse : String → Option α) (j : String),
      opts.jobId = some j → j ≠ "" → opts.waitForCompletion = true →
      (retrieve opts fetch body parse).statusChecks
        = (waitForStatus fetch Status.CONFIRMED MAX_STATUS_CHECKS).2
      ∧ (∀ st n,
          waitForStatus fetch Status.CONFIRMED MAX_STATUS_CHECKS
            = (Except.ok st, n) →
          st.requestId = none →
          (retrieve opts fetch body parse).result
            = Except.error (EDAError.retrieveError
                "Retrieval failed: No request_id in completed status")
          ∧ (retrieve opts fetch body parse).retrievalCalls = 0) := by
  intro α opts fetch body parse j hj hne hw
  have hjt : truthy opts.jobId = true := by rw [hj]; exact truthy_some hne
  constructor
  · rcases hws : waitForStatus fetch Status.CONFIRMED MAX_STATUS_CHECKS with ⟨res, n⟩
    cases res with
    | ok st =>
        cases htr : truthy st.requestId with
        | false =>
            simp [retrieve, retrieveInner, resolveRequestId, hjt, hw, hws, htr]
        | true =>
            simp [retrieve, retrieveInner, resolveRequestId, buildRequest, hjt,
              hw, hws, htr]
    | error e =>
        simp [retrieve, retrieveInner, resolveRequestId, hjt, hw, hws]
  · intro st n hws hnone
    have htr : truthy st.requestId = false := by rw [hnone]; rfl
    constructor <;>
      simp [retrieve, retrieveInner, resolveRequestId, hjt, hw, hws, htr,
        EDAError.message]

/-- Witness for C5 (amended): a job that is immediately CONFIRMED without a
    request id makes `retrieve({jobId: "J", waitForCompletion: true})` fail
    with the missing-request-id RetrieveError and no retrieval call. -/
theorem retrieve_wait_resolution_witness :
    (retrieve (α := Nat) ⟨some "J", none, none, none, true⟩ seqConfNoReq []
        (fun _ => none)).result
      = Except.error (EDAError.retrieveError
          "Retrieval failed: No request_id in completed status")
    ∧ (retrieve (α := Nat) ⟨some "J", none, none, none, true⟩ seqConfNoReq []
        (fun _ => none)).retrievalCalls = 0 :=
  (retrieve_wait_resolution Nat ⟨some "J", none, none, none, true⟩ seqConfNoReq
      [] (fun _ => none) "J" rfl (by decide) rfl).2
    ⟨Status.CONFIRMED, none, none, none⟩ 1 rfl rfl

/-- C9: every error raised inside `retrieve`'s try body is surfaced to the
    caller as a RetrieveError whose message is "Retrieval failed: "
    followed by the inner error's message; in particular a job that reaches
    FAILED during a waited retrieve surfaces as a RetrieveError (not a
    StatusError) wrapping the job-failure message, after a single status
    check. -/
theorem retrieve_error_wrapping :
    ∀ (α : Type) (opts : RetrieveOptions) (fetch : Nat → StatusResponse)
      (body : List Nat) (parse : String → Option α),
      (∀ e, (retrieveInner opts fetch body parse).result = Except.error e →
        (retrieve opts fetch body parse).result
          = Except.error (EDAError.retrieveError
              ("Retrieval failed: " ++ EDAError.message e)))
      ∧ (∀ j msg, opts.jobId = some j → j ≠ "" →
          opts.waitForCompletion = true →
          (fetch 0).status = Status.FAILED → (fetch 0).error = some msg →
          msg ≠ "" →
          (retrieve opts fetch body parse).result
            = Except.error (EDAError.retrieveError
                ("Retrieval failed: " ++ ("Job failed: " ++ msg)))
          ∧ (retrieve opts fetch body parse).statusChecks = 1) := by
  intro α opts fetch body parse
  constructor
  · intro e he
    simp only [retrieve, he]
  · intro j msg hj hne hw hfail herr hmsg
    have hjt : truthy opts.jobId = true := by rw [hj]; exact truthy_some hne
    have hws : waitForStatus fetch Status.CONFIRMED MAX_STATUS_CHECKS
        = (Except.error (EDAError.statusError
            ("Job failed: " ++ orElseStr (fetch 0).error "Unknown error")), 1) := by
      have h := pollGo_failed fetch Status.CONFIRMED MAX_STATUS_CHECKS 0 0
        MAX_STATUS_CHECKS (by decide) (by simpa using hfail) (by decide)
        (fun j hj1 hj2 => absurd (Nat.lt_of_le_of_lt hj1 hj2) (by omega))
      simpa [waitForStatus] using h
    rw [herr, orElseStr_some _ hmsg] at hws
    constructor <;>
      simp [retrieve, retrieveInner, resolveRequestId, hjt, hw, hws,
        EDAError.message]

/-- Witness for C9: a waited retrieve over a job that fails immediately
    with server error "boom" yields the wrapped RetrieveError after one
    check. -/
theorem retrieve_error_wrapping_witness :
    (retrieve (α := Nat) ⟨some "J", none, none, none, true⟩
        (fun _ => ⟨Status.FAILED, none, none, some "boom"⟩) []
        (fun _ => none)).result
      = Except.error (EDAError.retrieveError "Retrieval failed: Job failed: boom")
    ∧ (retrieve (α := Nat) ⟨some "J", none, none, none, true⟩
        (fun _ => ⟨Status.FAILED, none, none, some "boom"⟩) []
        (fun _ => none)).statusChecks = 1 :=
  (retrieve_error_wrapping Nat ⟨some "J", none, none, none, true⟩
      (fun _ => ⟨Status.FAILED, none, none, some "boom"⟩) [] (fun _ => none)).2
    "J" "boom" rfl (by decide) rfl rfl rfl (by decide)

/-- Counterexample to C10 as stated: with `requestId = "R"` and `jobId`
    present as the empty string and `waitForCompletion = true`, the code
    performs no poll and uses the caller-supplied `requestId` — the call
    succeeds with `{request_id: "R"}` even though the status response (had
    polling happened) lacks a requestId, contradicting both the "discards
    the caller-supplied requestId" and the "fails" parts of the claim. -/
theorem retrieve_wait_overrides_cex :
    c10cexOpts.requestId = some "R" ∧ c10cexOpts.jobId = some ""
    ∧ c10cexOpts.waitForCompletion = true
    ∧ (retrieve (α := Nat) c10cexOpts seqConfNoReq [] (fun _ => none)).request
        = some (RetrieveRequest.byRequestId "R")
    ∧ (retrieve (α := Nat) c10cexOpts seqConfNoReq [] (fun _ => none)).statusChecks = 0
    ∧ (retrieve (α := Nat) c10cexOpts seqConfNoReq [] (fun _ => none)).result
        = Except.ok (RetrievedValue.bytes [])
    ∧ (Except.ok (RetrievedValue.bytes ([] : List Nat))
        : Except EDAError (RetrievedValue Nat))
      ≠ Except.error (EDAError.retrieveError
          "Retrieval failed: No request_id in completed status") := by
  refine ⟨rfl, rfl, rfl, rfl, rfl, rfl, by simp⟩

/-- C10 (amended): when `requestId` is supplied together with a non-empty
    `jobId` and `waitForCompletion = true`, the caller's `requestId` is
    discarded: the resolved request id comes exclusively from the polled
    status response — if that response lacks a requestId the call fails
    even though the caller supplied one, and if it carries a non-empty
    requestId the request is built from that value. -/
theorem retrieve_wait_overrides_requestId :
    ∀ (α : Type) (opts : RetrieveOptions) (fetch : Nat → StatusResponse)
      (body : List Nat) (parse : String → Option α) (r j : String),
      opts.requestId = some r → opts.jobId = some j → j ≠ "" →
      opts.waitForCompletion = true →
      ∀ st n, waitForStatus fetch Status.CONFIRMED MAX_STATUS_CHECKS
          = (Except.ok st, n) →
        (st.requestId = none →
          (retrieve opts fetch body parse).result
            = Except.error (EDAError.retrieveError
                "Retrieval failed: No request_id in completed status")
          ∧ (retrieve opts fetch body parse).retrievalCalls = 0)
        ∧ (∀ r2, st.requestId = some r2 → r2 ≠ "" →
            (retrieve opts fetch body parse).request
              = some (RetrieveRequest.byRequestId r2)) := by
  intro α opts fetch body parse r j hr hj hne hw st n hws
  have hjt : truthy opts.jobId = true := by rw [hj]; exact truthy_some hne
  constructor
  · intro hnone
    have htr : truthy st.requestId = false := by rw [hnone]; rfl
    constructor <;>
      simp [retrieve, retrieveInner, resolveRequestId, hjt, hw, hws, htr,
        EDAError.message]
  · intro r2 hr2 hner2
    simp [retrieve, retrieveInner, resolveRequestId, buildRequest, hjt, hw,
      hws, hr2, truthy_some hner2]

/-- Witness for C10 (amended): with caller requestId "R" and a poll that
    returns CONFIRMED with requestId "S", the built request uses "S". -/
theorem retrieve_wait_overrides_requestId_witness :
    (retrieve (α := Nat) ⟨some "J", some "R", none, none, true⟩ seqConfS []
        (fun _ => none)).request = some (RetrieveRequest.byRequestId "S") :=
  ((retrieve_wait_overrides_requestId Nat ⟨some "J", some "R", none, none, true⟩
      seqConfS [] (fun _ => none) "R" "J" rfl rfl (by decide) rfl
      ⟨Status.CONFIRMED, some "S", none, none⟩ 1 rfl).2) "S" rfl (by decide)
